import Mathlib

/-!
Verification of the Afisha booking and notification pipeline.

Shallow embedding of the core subsystem of the repository:
events/services/booking.py (seat reservation and cancellation),
bookings/models.py, events/models.py (the pre_save status-change hook),
notifications/models.py (the NotificationLog table) and
notifications/tasks.py (dispatch, reminder scheduling, lifecycle sweep).

Conventions: timestamps are integers counted in minutes (timedelta(hours=1)
becomes 60), primary keys are naturals, the durable store is a record of
lists standing for the four tables the pipeline touches, a Celery enqueue
(.delay / .apply_async) is an element of a returned task list, and a raised
Python exception is the error side of an Except (under @transaction.atomic a
raised exception rolls the transaction back, so an error carries no store).
-/

namespace Afisha

/-- Lifecycle status of an Event (events/models.py, Event.Status). -/
inductive EventStatus
  | expected
  | cancelled
  | finished
deriving DecidableEq

/-- Row of the Event model (events/models.py); only the columns the booking
and notification pipeline reads are carried. -/
structure Event where
  id : Nat
  title : String
  startAt : Int
  city : String
  seats : Nat
  status : EventStatus
deriving DecidableEq

/-- Row of the Booking model (bookings/models.py): soft-deletable via
cancelledAt, active iff cancelledAt is none. The table carries a unique
constraint on (user, event). -/
structure Booking where
  userId : Nat
  eventId : Nat
  createdAt : Int
  cancelledAt : Option Int
deriving DecidableEq

/-- Row of the user table; only id and email are read by the pipeline. -/
structure User where
  id : Nat
  email : String
deriving DecidableEq

/-- NotificationLog.NotificationType (notifications/models.py). -/
inductive NotificationType
  | booking
  | cancellation
  | reminder
  | eventCancelled
deriving DecidableEq

/-- A rendered notification message. Each constructor records which template
of notifications/tasks.py produced it and which event fields were
interpolated by .format; the literal template text is not modelled, no claim
reads it. The placeholder constructors are the three fallback messages the
except-branches of the dispatch helper assign. -/
inductive RenderedMessage
  | bookingMsg (eventTitle : String) (startAt : Int)
  | cancellationMsg (eventTitle : String) (startAt : Int)
  | reminderMsg (eventTitle : String) (city : String)
  | eventCancelledMsg (eventTitle : String) (startAt : Int)
  | placeholderEventMissing
  | placeholderUserMissing
  | placeholderUnexpected
deriving DecidableEq

/-- Row of the NotificationLog model. Its columns are exactly those declared
in notifications/models.py: user, event, type, message, created_at, is_sent,
sent_at (plus the implicit id). The model declares no error_message column. -/
structure NotificationLog where
  userId : Nat
  eventId : Nat
  type : NotificationType
  message : RenderedMessage
  createdAt : Int
  isSent : Bool
  sentAt : Option Int
deriving DecidableEq

/-- The durable store: the four tables the pipeline touches. -/
structure DB where
  users : List User
  events : List Event
  bookings : List Booking
  notifications : List NotificationLog
deriving DecidableEq

/-- A task handed to the Celery broker by .delay or .apply_async. -/
inductive Task
  | sendBookingNotification (userId eventId : Nat)
  | sendCancelNotification (userId eventId : Nat)
  | sendReminder (userId eventId : Nat) (eta : Int)
  | cancelScheduledNotifications (eventId : Nat)
deriving DecidableEq

/-- Exceptions of events/services/booking.py. The source class raised for a
wrong status or an already-started event is named EventFinished; it is what
the spec calls EventNotBookable. -/
inductive BookingError
  | noSeats
  | eventNotFound
  | bookingNotFound
  | eventFinished
deriving DecidableEq

/-- Event.objects.get(id=event_id): the first row with that id, if any. -/
def findEvent (db : DB) (eventId : Nat) : Option Event :=
  db.events.find? (fun e => e.id == eventId)

/-- User.objects.get(id=user_id): the first row with that id, if any. -/
def findUser (db : DB) (userId : Nat) : Option User :=
  db.users.find? (fun u => u.id == userId)

/-- Booking.objects.filter(event=event, cancelled_at__isnull=True).count(). -/
def activeBookingsCount (bs : List Booking) (eventId : Nat) : Nat :=
  (bs.filter (fun b => b.eventId == eventId && b.cancelledAt.isNone)).length

/-- Row filter for the (user, event) uniqueness key of the Booking table. -/
def matchesPair (userId eventId : Nat) (b : Booking) : Bool :=
  b.userId == userId && b.eventId == eventId

/-- Row filter for the active booking of a (user, event) pair. -/
def matchesActivePair (userId eventId : Nat) (b : Booking) : Bool :=
  b.userId == userId && b.eventId == eventId && b.cancelledAt.isNone

/-- The write booking.cancelled_at = None; booking.save(...) performed by
create_booking on the row get_or_create returned: that row is the first
(and, under the unique constraint, only) (user, event) match. -/
def reactivateFirst (userId eventId : Nat) : List Booking → List Booking
  | [] => []
  | b :: bs =>
    if matchesPair userId eventId b then { b with cancelledAt := none } :: bs
    else b :: reactivateFirst userId eventId bs

/-- booking.cancel() (bookings/models.py lines 47-53) applied to the row
Booking.objects.get(user=..., event_id=..., cancelled_at__isnull=True)
returned: stamps cancelled_at on the first active (user, event) row. -/
def cancelFirst (now : Int) (userId eventId : Nat) : List Booking → List Booking
  | [] => []
  | b :: bs =>
    if matchesActivePair userId eventId b then { b with cancelledAt := some now } :: bs
    else b :: cancelFirst now userId eventId bs

/-- events/services/booking.py create_booking (lines 35-81). Returns the
updated store and the tasks enqueued by .delay, or the raised exception; on
an exception @transaction.atomic rolls back, so no state change and no task
survive. The select_for_update row lock serializes calls per event, which is
why one call is modelled as one atomic step. All three success paths satisfy
the line-78 guard "created or (not booking.cancelled_at)", so each enqueues
the booking notification. -/
def create_booking (now : Int) (userId eventId : Nat) (db : DB) :
    Except BookingError (DB × List Task) :=
  match findEvent db eventId with
  | none => .error .eventNotFound
  | some event =>
    if event.status ≠ EventStatus.expected then .error .eventFinished
    else if event.startAt ≤ now then .error .eventFinished
    else if event.seats ≤ activeBookingsCount db.bookings eventId then .error .noSeats
    else
      match db.bookings.find? (matchesPair userId eventId) with
      | none =>
        .ok ({ db with bookings :=
                 db.bookings ++ [{ userId := userId, eventId := eventId,
                                   createdAt := now, cancelledAt := none }] },
             [Task.sendBookingNotification userId eventId])
      | some existing =>
        if existing.cancelledAt.isSome then
          .ok ({ db with bookings := reactivateFirst userId eventId db.bookings },
               [Task.sendBookingNotification userId eventId])
        else
          .ok (db, [Task.sendBookingNotification userId eventId])

/-- events/services/booking.py cancel_booking (lines 84-110). -/
def cancel_booking (now : Int) (userId eventId : Nat) (db : DB) :
    Except BookingError (DB × List Task) :=
  match db.bookings.find? (matchesActivePair userId eventId) with
  | none => .error .bookingNotFound
  | some _ =>
    .ok ({ db with bookings := cancelFirst now userId eventId db.bookings },
         [Task.sendCancelNotification userId eventId])

/-- A booking-coordinator call together with its wall-clock time. -/
inductive Op
  | createB (now : Int) (userId eventId : Nat)
  | cancelB (now : Int) (userId eventId : Nat)
deriving DecidableEq

/-- Apply one coordinator call to the store; a raised exception leaves the
store unchanged (transaction rollback). -/
def applyOp (db : DB) : Op → DB
  | .createB now u e =>
    match create_booking now u e db with
    | .ok (db2, _) => db2
    | .error _ => db
  | .cancelB now u e =>
    match cancel_booking now u e db with
    | .ok (db2, _) => db2
    | .error _ => db

/-- Run a sequence of coordinator calls against the store. -/
def runOps (db : DB) : List Op → DB
  | [] => db
  | op :: ops => runOps (applyOp db op) ops

/-- Capacity invariant of the spec: every event reachable through
Event.objects.get has no more active bookings than seats. -/
def CapacityInv (db : DB) : Prop :=
  ∀ e ∈ db.events, findEvent db e.id = some e →
    activeBookingsCount db.bookings e.id ≤ e.seats

/-- Uniqueness invariant of the Booking table: the (user, event) key list has
no duplicate, mirroring the unique_user_event_booking constraint. -/
def bookingKeys (bs : List Booking) : List (Nat × Nat) :=
  bs.map (fun b => (b.userId, b.eventId))

/-- At most one Booking row per (user, event) pair. -/
def PairUnique (bs : List Booking) : Prop :=
  (bookingKeys bs).Nodup

/-- A raised Python exception escaping the modelled task code. -/
inductive PyError
  | typeErrorUnexpectedKwarg (model : String) (kwarg : String)
deriving DecidableEq

/-- The attribute names a NotificationLog(...) constructor call accepts: for
every field of notifications/models.py its name and, for the two foreign
keys, also the _id attname; plus the implicit primary key. The model
declares no error_message field, so that name is absent. -/
def notificationLogAttnames : List String :=
  ["id", "user", "user_id", "event", "event_id", "type", "message",
   "created_at", "is_sent", "sent_at"]

/-- The keyword-argument names of the NotificationLog.objects.create call in
the dispatch helper (notifications/tasks.py lines 49-57). -/
def sendNotificationCreateKwargNames : List String :=
  ["user_id", "event_id", "type", "message", "is_sent", "sent_at", "error_message"]

/-- Django Model.init raises TypeError for a keyword argument that names no
model field, attname or property, so objects.create fails before any row is
written when such a kwarg is present; otherwise the row is inserted. -/
def djangoCreateNotificationLog (kwargNames : List String) (row : NotificationLog)
    (db : DB) : Except PyError DB :=
  match kwargNames.find? (fun k => !(notificationLogAttnames.contains k)) with
  | some k => .error (.typeErrorUnexpectedKwarg "NotificationLog" k)
  | none => .ok { db with notifications := db.notifications ++ [row] }

/-- notifications/tasks.py lines 16-59, the dispatch helper. transport models
email_client.send_email, which returns a Bool and never raises
(grpc_client.py catches every error and returns False). The try of the
helper resolves the user first, then the event; a missing reference leaves
success False, a placeholder message and a populated error string. The
helper then issues NotificationLog.objects.create with the kwargs of
sendNotificationCreateKwargNames and returns the success flag. -/
def sendNotificationHelper (now : Int) (userId eventId : Nat)
    (notificationType : NotificationType)
    (render : User → Event → RenderedMessage)
    (transport : String → RenderedMessage → Bool)
    (db : DB) : Except PyError (DB × Bool) :=
  let outcome : Bool × RenderedMessage × Option String :=
    match findUser db userId with
    | none => (false, RenderedMessage.placeholderUserMissing, some "User not found")
    | some user =>
      match findEvent db eventId with
      | none => (false, RenderedMessage.placeholderEventMissing, some "Event not found")
      | some event =>
        let message := render user event
        (transport user.email message, message, none)
  match djangoCreateNotificationLog sendNotificationCreateKwargNames
      { userId := userId, eventId := eventId, type := notificationType,
        message := outcome.2.1, createdAt := now, isSent := outcome.1,
        sentAt := if outcome.1 then some now else none } db with
  | .ok db2 => .ok (db2, outcome.1)
  | .error e => .error e

/-- tasks.py lines 62-75, send_booking_notification. -/
def send_booking_notification (now : Int) (userId eventId : Nat)
    (transport : String → RenderedMessage → Bool) (db : DB) :
    Except PyError (DB × Bool) :=
  sendNotificationHelper now userId eventId NotificationType.booking
    (fun _ event => RenderedMessage.bookingMsg event.title event.startAt) transport db

/-- tasks.py lines 78-91, send_cancel_notification. -/
def send_cancel_notification (now : Int) (userId eventId : Nat)
    (transport : String → RenderedMessage → Bool) (db : DB) :
    Except PyError (DB × Bool) :=
  sendNotificationHelper now userId eventId NotificationType.cancellation
    (fun _ event => RenderedMessage.cancellationMsg event.title event.startAt) transport db

/-- Result of one send_reminder task run. -/
inductive ReminderOutcome
  | skippedMissing
  | skippedStatus (s : EventStatus)
  | dispatched (sent : Bool)
deriving DecidableEq

/-- tasks.py lines 94-115, send_reminder: re-checks the event before
dispatch and skips, writing nothing, when the event is gone or no longer
EXPECTED. -/
def send_reminder (now : Int) (userId eventId : Nat)
    (transport : String → RenderedMessage → Bool) (db : DB) :
    Except PyError (DB × ReminderOutcome) :=
  match findEvent db eventId with
  | none => .ok (db, .skippedMissing)
  | some event =>
    if event.status ≠ EventStatus.expected then .ok (db, .skippedStatus event.status)
    else
      match sendNotificationHelper now userId eventId NotificationType.reminder
          (fun _ ev => RenderedMessage.reminderMsg ev.title ev.city) transport db with
      | .ok (db2, sent) => .ok (db2, .dispatched sent)
      | .error e => .error e

/-- Loop body of send_event_cancelled_notification: one helper call per
active booking, accumulating the success flags. Only Event.DoesNotExist from
the initial get is caught by the task, so any other exception raised inside
an iteration aborts the whole task. -/
def fanOutLoop (now : Int) (eventId : Nat)
    (transport : String → RenderedMessage → Bool) :
    List Booking → DB → List Bool → Except PyError (DB × List Bool)
  | [], db, results => .ok (db, results)
  | b :: bs, db, results =>
    match sendNotificationHelper now b.userId eventId NotificationType.eventCancelled
        (fun _ ev => RenderedMessage.eventCancelledMsg ev.title ev.startAt) transport db with
    | .ok (db2, success) => fanOutLoop now eventId transport bs db2 (results ++ [success])
    | .error e => .error e

/-- tasks.py lines 118-149, send_event_cancelled_notification: iterates the
active bookings of the event and reports (success_count, fail_count); a
missing event returns counts (0, 0) (the "Event not found" return string). -/
def send_event_cancelled_notification (now : Int) (eventId : Nat)
    (transport : String → RenderedMessage → Bool) (db : DB) :
    Except PyError (DB × Nat × Nat) :=
  match findEvent db eventId with
  | none => .ok (db, 0, 0)
  | some _ =>
    let active := db.bookings.filter (fun b => b.eventId == eventId && b.cancelledAt.isNone)
    match fanOutLoop now eventId transport active db [] with
    | .ok (db2, results) =>
      .ok (db2, (results.filter (fun r => r)).length,
           results.length - (results.filter (fun r => r)).length)
    | .error e => .error e

/-- Event filter of schedule_reminders: status EXPECTED and start_at in the
inclusive range (now + 1h, now + 2h) of the Django __range lookup. -/
def reminderWindowEvents (now : Int) (db : DB) : List Event :=
  db.events.filter (fun e =>
    decide (e.status = EventStatus.expected) &&
    decide (now + 60 ≤ e.startAt) && decide (e.startAt ≤ now + 120))

/-- Dedup guard of schedule_reminders: a REMINDER NotificationLog row for the
event with created_at in the last 24 hours exists. -/
def hasRecentReminderLog (now : Int) (db : DB) (eventId : Nat) : Bool :=
  db.notifications.any (fun n =>
    n.eventId == eventId && decide (n.type = NotificationType.reminder) &&
    decide (now - 1440 ≤ n.createdAt))

/-- Per-event body of schedule_reminders: skip the event when the dedup guard
fires, otherwise schedule send_reminder at eta = start_at - 1h for every
active booking whose eta is still in the future. -/
def scheduleForEvent (now : Int) (db : DB) (e : Event) : List Task :=
  if hasRecentReminderLog now db e.id then []
  else
    (db.bookings.filter (fun b => b.eventId == e.id && b.cancelledAt.isNone)).filterMap
      (fun b =>
        if decide (now < e.startAt - 60) then
          some (Task.sendReminder b.userId e.id (e.startAt - 60))
        else none)

/-- tasks.py lines 152-179, schedule_reminders. The sweep writes nothing
durable: it only reads the store and hands tasks to the broker, so the store
is returned unchanged by construction. -/
def schedule_reminders (now : Int) (db : DB) : DB × List Task :=
  (db, ((reminderWindowEvents now db).map (scheduleForEvent now db)).flatten)

/-- events/models.py lines 150-163, the pre_save receiver
cancel_notifications_on_status_change: when a saved instance with an
existing primary key leaves status EXPECTED, enqueue
cancel_scheduled_notifications for it. -/
def cancel_notifications_on_status_change (db : DB) (inst : Event) : List Task :=
  match findEvent db inst.id with
  | some old =>
    if old.status = EventStatus.expected ∧ inst.status ≠ EventStatus.expected then
      [Task.cancelScheduledNotifications inst.id]
    else []
  | none => []

/-- instance.save() on an Event row: Django fires pre_save (the receiver
above reads the stored row), then writes the instance over it. -/
def event_save (db : DB) (inst : Event) : DB × List Task :=
  (({ db with events :=
       db.events.map (fun e => if e.id == inst.id then inst else e) }),
   cancel_notifications_on_status_change db inst)

/-- Row filter of finish_events: status EXPECTED and start_at more than two
hours in the past. -/
def staleExpected (now : Int) (e : Event) : Bool :=
  decide (e.status = EventStatus.expected) && decide (e.startAt < now - 120)

/-- notifications/tasks.py lines 191-198, finish_events: one bulk
QuerySet.update to status FINISHED. A queryset update issues a single SQL
UPDATE without calling Model.save, and Django sends no pre_save signal for
rows changed this way, so no receiver runs: the sweep enqueues no task.
Returns the updated row count alongside. -/
def finish_events (now : Int) (db : DB) : DB × Nat × List Task :=
  ({ db with events := db.events.map (fun e =>
       if staleExpected now e then { e with status := EventStatus.finished } else e) },
   (db.events.filter (staleExpected now)).length,
   [])

/-- Observable steps of one create_booking call, in program order. The
closing commit or rollback of @transaction.atomic happens at function exit;
commitOk models whether the database commit at exit succeeds, since the
transaction can still fail after the body ran. A .delay call enqueues to the
broker immediately at the point it executes; create_booking wraps it in no
transaction.on_commit hook. -/
inductive Action
  | writeBooking (userId eventId : Nat)
  | enqueue (t : Task)
  | commit
  | rollback
deriving DecidableEq

/-- The ordered observable actions of one create_booking call, following the
control flow of events/services/booking.py lines 35-81: a raised exception
rolls back at once; a success path performs its row write (if any), then the
line-79 .delay enqueue, then commits or rolls back at exit. -/
def create_booking_trace (now : Int) (userId eventId : Nat) (db : DB)
    (commitOk : Bool) : List Action :=
  match findEvent db eventId with
  | none => [Action.rollback]
  | some event =>
    if event.status ≠ EventStatus.expected then [Action.rollback]
    else if event.startAt ≤ now then [Action.rollback]
    else if event.seats ≤ activeBookingsCount db.bookings eventId then [Action.rollback]
    else
      (match db.bookings.find? (matchesPair userId eventId) with
       | none => [Action.writeBooking userId eventId]
       | some existing =>
         if existing.cancelledAt.isSome then [Action.writeBooking userId eventId] else []) ++
      [Action.enqueue (Task.sendBookingNotification userId eventId),
       if commitOk then Action.commit else Action.rollback]

instance (db : DB) : Decidable (CapacityInv db) := by
  unfold CapacityInv
  infer_instance

instance (bs : List Booking) : Decidable (PairUnique bs) := by
  unfold PairUnique
  infer_instance

/-- Concrete stores used by the witnesses and counterexamples below. -/
def evC1 : Event :=
  { id := 1, title := "", startAt := 100, city := "", seats := 1,
    status := EventStatus.expected }

def dbC1 : DB :=
  { users := [], events := [evC1],
    bookings := [{ userId := 5, eventId := 1, createdAt := 0, cancelledAt := none }],
    notifications := [] }

def dbC6 : DB :=
  { users := [], events := [],
    bookings := [{ userId := 3, eventId := 1, createdAt := 0, cancelledAt := none }],
    notifications := [] }

def dbC7 : DB :=
  { users := [],
    events := [{ id := 2, title := "", startAt := 100, city := "", seats := 5,
                 status := EventStatus.finished }],
    bookings := [], notifications := [] }

def dbC10 : DB :=
  { users := [], events := [evC1],
    bookings := [{ userId := 7, eventId := 1, createdAt := 0, cancelledAt := none }],
    notifications := [] }

def dbC8 : DB :=
  { users := [], events := [evC1],
    bookings := [{ userId := 3, eventId := 1, createdAt := 0, cancelledAt := none }],
    notifications := [] }

def evC3 : Event :=
  { id := 1, title := "", startAt := 90, city := "", seats := 10,
    status := EventStatus.expected }

def dbC3 : DB :=
  { users := [], events := [evC3],
    bookings := [{ userId := 1, eventId := 1, createdAt := 0, cancelledAt := none }],
    notifications := [] }

def dbC4 : DB :=
  { users := [], events := [evC1], bookings := [], notifications := [] }

def evC5 : Event :=
  { id := 4, title := "", startAt := -300, city := "", seats := 5,
    status := EventStatus.expected }

def dbC5 : DB :=
  { users := [], events := [evC5], bookings := [], notifications := [] }

def evC5cancelled : Event :=
  { id := 4, title := "", startAt := -300, city := "", seats := 5,
    status := EventStatus.cancelled }

def evC9 : Event :=
  { id := 1, title := "", startAt := 100, city := "", seats := 5,
    status := EventStatus.expected }

def dbC9 : DB :=
  { users := [{ id := 1, email := "a" }, { id := 2, email := "b" }],
    events := [evC9],
    bookings := [{ userId := 1, eventId := 1, createdAt := 0, cancelledAt := none },
                 { userId := 2, eventId := 1, createdAt := 0, cancelledAt := none }],
    notifications := [] }

theorem activeBookingsCount_cons (b : Booking) (bs : List Booking) (eid : Nat) :
    activeBookingsCount (b :: bs) eid =
      (if b.eventId == eid && b.cancelledAt.isNone then 1 else 0) +
        activeBookingsCount bs eid := by
  simp only [activeBookingsCount, List.filter_cons]
  split
  · simp [Nat.add_comm]
  · simp

theorem activeBookingsCount_append_single (bs : List Booking) (b : Booking) (eid : Nat) :
    activeBookingsCount (bs ++ [b]) eid =
      activeBookingsCount bs eid +
        (if b.eventId == eid && b.cancelledAt.isNone then 1 else 0) := by
  simp only [activeBookingsCount, List.filter_append, List.length_append,
    List.filter_cons, List.filter_nil]
  split <;> simp

theorem matchesPair_eq (u e : Nat) (b : Booking) (h : matchesPair u e b = true) :
    b.userId = u ∧ b.eventId = e := by
  simpa [matchesPair] using h

theorem matchesActivePair_eq (u e : Nat) (b : Booking)
    (h : matchesActivePair u e b = true) :
    b.userId = u ∧ b.eventId = e ∧ b.cancelledAt = none := by
  simpa [matchesActivePair, Option.isNone_iff_eq_none, and_assoc] using h

theorem activeBookingsCount_reactivateFirst_le (u e eid : Nat) (bs : List Booking) :
    activeBookingsCount (reactivateFirst u e bs) eid ≤
      activeBookingsCount bs eid + (if e = eid then 1 else 0) := by
  induction bs with
  | nil => simp [reactivateFirst]
  | cons b bs ih =>
    rw [reactivateFirst]
    by_cases h : matchesPair u e b = true
    · rw [if_pos h, activeBookingsCount_cons, activeBookingsCount_cons]
      obtain ⟨-, heb⟩ := matchesPair_eq u e b h
      by_cases he : e = eid
      · subst he
        simp only [heb, beq_self_eq_true, Bool.true_and, Option.isNone_none,
          if_true, if_pos rfl]
        split <;> omega
      · have hb : (b.eventId == eid) = false := by simp [heb, he]
        simp only [hb, Bool.false_and, Bool.false_eq_true, if_false, if_neg he]
        omega
    · rw [if_neg h, activeBookingsCount_cons, activeBookingsCount_cons]
      omega

theorem activeBookingsCount_cancelFirst_le (t : Int) (u e eid : Nat)
    (bs : List Booking) :
    activeBookingsCount (cancelFirst t u e bs) eid ≤ activeBookingsCount bs eid := by
  induction bs with
  | nil => simp [cancelFirst]
  | cons b bs ih =>
    rw [cancelFirst]
    by_cases h : matchesActivePair u e b = true
    · rw [if_pos h, activeBookingsCount_cons, activeBookingsCount_cons]
      simp only [Option.isNone_some, Bool.and_false, Bool.false_eq_true, if_false]
      omega
    · rw [if_neg h, activeBookingsCount_cons, activeBookingsCount_cons]
      omega

theorem activeBookingsCount_cancelFirst_of_find (t : Int) (u e : Nat)
    (bs : List Booking) (b : Booking)
    (h : bs.find? (matchesActivePair u e) = some b) :
    activeBookingsCount (cancelFirst t u e bs) e + 1 = activeBookingsCount bs e := by
  induction bs with
  | nil => simp at h
  | cons b0 bs ih =>
    by_cases h0 : matchesActivePair u e b0 = true
    · rw [cancelFirst, if_pos h0, activeBookingsCount_cons, activeBookingsCount_cons]
      obtain ⟨-, heb, hact⟩ := matchesActivePair_eq u e b0 h0
      simp only [heb, hact, beq_self_eq_true, Bool.true_and, Option.isNone_none,
        Option.isNone_some, Bool.and_false, Bool.false_eq_true, if_false, if_true]
      omega
    · rw [cancelFirst, if_neg h0, activeBookingsCount_cons, activeBookingsCount_cons]
      rw [List.find?_cons_of_neg _ (by simpa using h0)] at h
      have := ih h
      omega

theorem bookingKeys_cons (b : Booking) (bs : List Booking) :
    bookingKeys (b :: bs) = (b.userId, b.eventId) :: bookingKeys bs := rfl

theorem bookingKeys_reactivateFirst (u e : Nat) (bs : List Booking) :
    bookingKeys (reactivateFirst u e bs) = bookingKeys bs := by
  induction bs with
  | nil => rfl
  | cons b bs ih =>
    rw [reactivateFirst]
    by_cases h : matchesPair u e b = true
    · rw [if_pos h, bookingKeys_cons, bookingKeys_cons]
    · rw [if_neg h, bookingKeys_cons, bookingKeys_cons, ih]

theorem bookingKeys_cancelFirst (t : Int) (u e : Nat) (bs : List Booking) :
    bookingKeys (cancelFirst t u e bs) = bookingKeys bs := by
  induction bs with
  | nil => rfl
  | cons b bs ih =>
    rw [cancelFirst]
    by_cases h : matchesActivePair u e b = true
    · rw [if_pos h, bookingKeys_cons, bookingKeys_cons]
    · rw [if_neg h, bookingKeys_cons, bookingKeys_cons, ih]

theorem length_reactivateFirst (u e : Nat) (bs : List Booking) :
    (reactivateFirst u e bs).length = bs.length := by
  have h := congrArg List.length (bookingKeys_reactivateFirst u e bs)
  simpa [bookingKeys] using h

theorem length_cancelFirst (t : Int) (u e : Nat) (bs : List Booking) :
    (cancelFirst t u e bs).length = bs.length := by
  have h := congrArg List.length (bookingKeys_cancelFirst t u e bs)
  simpa [bookingKeys] using h

theorem not_mem_bookingKeys_of_find?_none (u e : Nat) (bs : List Booking)
    (h : bs.find? (matchesPair u e) = none) : (u, e) ∉ bookingKeys bs := by
  induction bs with
  | nil => simp [bookingKeys]
  | cons b bs ih =>
    by_cases hm : matchesPair u e b = true
    · rw [List.find?_cons_of_pos _ hm] at h
      exact absurd h (by simp)
    · rw [List.find?_cons_of_neg _ (by simpa using hm)] at h
      rw [bookingKeys_cons]
      intro hmem
      rcases List.mem_cons.mp hmem with hhd | htl
      · have : b.userId = u ∧ b.eventId = e := by
          have h1 := (Prod.mk.injEq u e b.userId b.eventId).mp hhd
          exact ⟨h1.1.symm, h1.2.symm⟩
        exact hm (by simp [matchesPair, this.1, this.2])
      · exact ih h htl

theorem find?_matchesActivePair_none_of_not_mem (u e : Nat) (bs : List Booking)
    (h : (u, e) ∉ bookingKeys bs) : bs.find? (matchesActivePair u e) = none := by
  induction bs with
  | nil => rfl
  | cons b bs ih =>
    rw [bookingKeys_cons] at h
    have hhd : (u, e) ≠ (b.userId, b.eventId) := fun hc => h (List.mem_cons.mpr (Or.inl hc))
    have htl : (u, e) ∉ bookingKeys bs := fun hc => h (List.mem_cons.mpr (Or.inr hc))
    have hm : ¬ matchesActivePair u e b = true := by
      intro hc
      obtain ⟨h1, h2, -⟩ := matchesActivePair_eq u e b hc
      exact hhd (by rw [h1, h2])
    rw [List.find?_cons_of_neg _ (by simpa using hm)]
    exact ih htl

theorem find?_matchesActivePair_cancelFirst (t : Int) (u e : Nat) (bs : List Booking)
    (hu : PairUnique bs) :
    (cancelFirst t u e bs).find? (matchesActivePair u e) = none := by
  induction bs with
  | nil => rfl
  | cons b0 bs ih =>
    rw [PairUnique, bookingKeys_cons, List.nodup_cons] at hu
    obtain ⟨hnot, hnodup⟩ := hu
    by_cases h0 : matchesActivePair u e b0 = true
    · rw [cancelFirst, if_pos h0]
      obtain ⟨h1, h2, -⟩ := matchesActivePair_eq u e b0 h0
      have hhd : ¬ matchesActivePair u e { b0 with cancelledAt := some t } = true := by
        simp [matchesActivePair]
      rw [List.find?_cons_of_neg _ (by simpa using hhd)]
      exact find?_matchesActivePair_none_of_not_mem u e bs (by rw [← h1, ← h2]; exact hnot)
    · rw [cancelFirst, if_neg h0]
      rw [List.find?_cons_of_neg _ (by simpa using h0)]
      exact ih hnodup

theorem find?_matchesPair_cancelFirst (t : Int) (u e : Nat) (bs : List Booking)
    (b : Booking) (hu : PairUnique bs)
    (hfind : bs.find? (matchesActivePair u e) = some b) :
    (cancelFirst t u e bs).find? (matchesPair u e) =
      some { b with cancelledAt := some t } := by
  induction bs with
  | nil => simp at hfind
  | cons b0 bs ih =>
    rw [PairUnique, bookingKeys_cons, List.nodup_cons] at hu
    obtain ⟨hnot, hnodup⟩ := hu
    by_cases h0 : matchesActivePair u e b0 = true
    · rw [List.find?_cons_of_pos _ h0] at hfind
      injection hfind with hfind
      subst hfind
      rw [cancelFirst, if_pos h0]
      obtain ⟨h1, h2, -⟩ := matchesActivePair_eq u e b0 h0
      have hhd : matchesPair u e { b0 with cancelledAt := some t } = true := by
        simp [matchesPair, h1, h2]
      rw [List.find?_cons_of_pos _ hhd]
    · rw [List.find?_cons_of_neg _ (by simpa using h0)] at hfind
      have hbmem : b ∈ bs := List.mem_of_find?_eq_some hfind
      have hbp : matchesActivePair u e b = true := List.find?_some hfind
      obtain ⟨h1, h2, -⟩ := matchesActivePair_eq u e b hbp
      have hkey : (u, e) ∈ bookingKeys bs := by
        rw [bookingKeys]
        exact List.mem_map.mpr ⟨b, hbmem, by rw [h1, h2]⟩
      have hhd : ¬ matchesPair u e b0 = true := by
        intro hc
        obtain ⟨hc1, hc2⟩ := matchesPair_eq u e b0 hc
        exact hnot (by rw [hc1, hc2]; exact hkey)
      rw [cancelFirst, if_neg h0]
      rw [List.find?_cons_of_neg _ (by simpa using hhd)]
      exact ih hnodup hfind

theorem find?_matchesPair_reactivateFirst (u e : Nat) (bs : List Booking)
    (b : Booking) (hfind : bs.find? (matchesPair u e) = some b) :
    (reactivateFirst u e bs).find? (matchesPair u e) =
      some { b with cancelledAt := none } := by
  induction bs with
  | nil => simp at hfind
  | cons b0 bs ih =>
    by_cases h0 : matchesPair u e b0 = true
    · rw [List.find?_cons_of_pos _ h0] at hfind
      injection hfind with hfind
      subst hfind
      rw [reactivateFirst, if_pos h0]
      obtain ⟨h1, h2⟩ := matchesPair_eq u e b0 h0
      have hhd : matchesPair u e { b0 with cancelledAt := none } = true := by
        simp [matchesPair, h1, h2]
      rw [List.find?_cons_of_pos _ hhd]
    · rw [List.find?_cons_of_neg _ (by simpa using h0)] at hfind
      rw [reactivateFirst, if_neg h0]
      rw [List.find?_cons_of_neg _ (by simpa using h0)]
      exact ih hfind

theorem activeBookingsCount_append_new (bs : List Booking) (u e eid : Nat)
    (now : Int) :
    activeBookingsCount
        (bs ++ [{ userId := u, eventId := e, createdAt := now,
                  cancelledAt := none }]) eid =
      activeBookingsCount bs eid + (if e = eid then 1 else 0) := by
  rw [activeBookingsCount_append_single]
  by_cases hee : e = eid
  · simp [hee]
  · simp [hee]

theorem create_booking_ok_inv (now : Int) (u e : Nat) (db db2 : DB)
    (ts : List Task) (h : create_booking now u e db = Except.ok (db2, ts)) :
    db2.users = db.users ∧ db2.events = db.events ∧
    db2.notifications = db.notifications ∧
    ts = [Task.sendBookingNotification u e] ∧
    ∃ ev, findEvent db e = some ev ∧ ev.status = EventStatus.expected ∧
      now < ev.startAt ∧ activeBookingsCount db.bookings e < ev.seats ∧
      ((db2.bookings = db.bookings ++
          [{ userId := u, eventId := e, createdAt := now, cancelledAt := none }] ∧
        db.bookings.find? (matchesPair u e) = none) ∨
       db2.bookings = reactivateFirst u e db.bookings ∨
       db2.bookings = db.bookings) := by
  unfold create_booking at h
  split at h
  · exact absurd h (by simp)
  rename_i ev hfe
  split at h
  · exact absurd h (by simp)
  rename_i h1
  split at h
  · exact absurd h (by simp)
  rename_i h2
  split at h
  · exact absurd h (by simp)
  rename_i h3
  split at h
  · rename_i hfb
    rw [Except.ok.injEq, Prod.mk.injEq] at h
    obtain ⟨hdb, hts⟩ := h
    subst hdb
    subst hts
    exact ⟨rfl, rfl, rfl, rfl, ev, hfe, not_not.mp (fun hc => h1 hc),
      lt_of_not_le h2, lt_of_not_le h3, Or.inl ⟨rfl, hfb⟩⟩
  · rename_i ex hfb
    split at h
    · rw [Except.ok.injEq, Prod.mk.injEq] at h
      obtain ⟨hdb, hts⟩ := h
      subst hdb
      subst hts
      exact ⟨rfl, rfl, rfl, rfl, ev, hfe, not_not.mp (fun hc => h1 hc),
        lt_of_not_le h2, lt_of_not_le h3, Or.inr (Or.inl rfl)⟩
    · rw [Except.ok.injEq, Prod.mk.injEq] at h
      obtain ⟨hdb, hts⟩ := h
      subst hdb
      subst hts
      exact ⟨rfl, rfl, rfl, rfl, ev, hfe, not_not.mp (fun hc => h1 hc),
        lt_of_not_le h2, lt_of_not_le h3, Or.inr (Or.inr rfl)⟩

theorem cancel_booking_ok_inv (now : Int) (u e : Nat) (db db2 : DB)
    (ts : List Task) (h : cancel_booking now u e db = Except.ok (db2, ts)) :
    db2.users = db.users ∧ db2.events = db.events ∧
    db2.notifications = db.notifications ∧
    ts = [Task.sendCancelNotification u e] ∧
    db2.bookings = cancelFirst now u e db.bookings ∧
    ∃ b, db.bookings.find? (matchesActivePair u e) = some b := by
  unfold cancel_booking at h
  split at h
  · exact absurd h (by simp)
  rename_i b hfb
  rw [Except.ok.injEq, Prod.mk.injEq] at h
  obtain ⟨hdb, hts⟩ := h
  subst hdb
  subst hts
  exact ⟨rfl, rfl, rfl, rfl, rfl, b, hfb⟩

theorem applyOp_createB_of_ok (db db2 : DB) (ts : List Task) (now : Int) (u e : Nat)
    (h : create_booking now u e db = Except.ok (db2, ts)) :
    applyOp db (Op.createB now u e) = db2 := by
  simp [applyOp, h]

theorem applyOp_createB_of_error (db : DB) (err : BookingError) (now : Int) (u e : Nat)
    (h : create_booking now u e db = Except.error err) :
    applyOp db (Op.createB now u e) = db := by
  simp [applyOp, h]

theorem applyOp_cancelB_of_ok (db db2 : DB) (ts : List Task) (now : Int) (u e : Nat)
    (h : cancel_booking now u e db = Except.ok (db2, ts)) :
    applyOp db (Op.cancelB now u e) = db2 := by
  simp [applyOp, h]

theorem applyOp_cancelB_of_error (db : DB) (err : BookingError) (now : Int) (u e : Nat)
    (h : cancel_booking now u e db = Except.error err) :
    applyOp db (Op.cancelB now u e) = db := by
  simp [applyOp, h]

theorem findEvent_congr (db db2 : DB) (hev : db2.events = db.events) (x : Nat) :
    findEvent db2 x = findEvent db x := by
  unfold findEvent
  rw [hev]

theorem capacityInv_applyOp (db : DB) (op : Op) (h : CapacityInv db) :
    CapacityInv (applyOp db op) := by
  cases op with
  | createB now u e =>
    cases hc : create_booking now u e db with
    | error err => rw [applyOp_createB_of_error db err now u e hc]; exact h
    | ok p =>
      obtain ⟨db2, ts⟩ := p
      rw [applyOp_createB_of_ok db db2 ts now u e hc]
      obtain ⟨-, hev, -, -, ev, hfe, -, -, hcnt, hbk⟩ :=
        create_booking_ok_inv now u e db db2 ts hc
      intro e2 he2 hfind2
      rw [hev] at he2
      rw [findEvent_congr db db2 hev] at hfind2
      have hbase := h e2 he2 hfind2
      have hevid : e = e2.id → e2 = ev := by
        intro hee
        rw [hee] at hfe
        rw [hfind2] at hfe
        exact (Option.some.injEq _ _).mp hfe.symm |>.symm
      rcases hbk with ⟨hins, -⟩ | hre | hsame
      · rw [hins, activeBookingsCount_append_new]
        by_cases hee : e = e2.id
        · rw [if_pos hee]
          have he2ev := hevid hee
          rw [← hee, he2ev]
          rw [← hee, he2ev] at hbase
          omega
        · rw [if_neg hee]
          simpa using hbase
      · rw [hre]
        have hle := activeBookingsCount_reactivateFirst_le u e e2.id db.bookings
        by_cases hee : e = e2.id
        · have he2ev := hevid hee
          rw [if_pos hee] at hle
          rw [← hee] at hbase hle ⊢
          rw [he2ev]
          rw [he2ev] at hbase
          omega
        · rw [if_neg hee] at hle
          omega
      · rw [hsame]
        exact hbase
  | cancelB now u e =>
    cases hc : cancel_booking now u e db with
    | error err => rw [applyOp_cancelB_of_error db err now u e hc]; exact h
    | ok p =>
      obtain ⟨db2, ts⟩ := p
      rw [applyOp_cancelB_of_ok db db2 ts now u e hc]
      obtain ⟨-, hev, -, -, hbk, -⟩ := cancel_booking_ok_inv now u e db db2 ts hc
      intro e2 he2 hfind2
      rw [hev] at he2
      rw [findEvent_congr db db2 hev] at hfind2
      have hbase := h e2 he2 hfind2
      rw [hbk]
      have hle := activeBookingsCount_cancelFirst_le now u e e2.id db.bookings
      omega

theorem capacityInv_runOps (db : DB) (ops : List Op) (h : CapacityInv db) :
    CapacityInv (runOps db ops) := by
  induction ops generalizing db with
  | nil => exact h
  | cons op ops ih => exact ih (applyOp db op) (capacityInv_applyOp db op h)

theorem pairUnique_append_new (u e : Nat) (now : Int) (bs : List Booking)
    (hu : PairUnique bs) (hnone : bs.find? (matchesPair u e) = none) :
    PairUnique (bs ++
      [{ userId := u, eventId := e, createdAt := now, cancelledAt := none }]) := by
  have hnotmem := not_mem_bookingKeys_of_find?_none u e bs hnone
  rw [PairUnique, bookingKeys, List.map_append, List.nodup_append]
  refine ⟨hu, List.nodup_singleton _, ?_⟩
  intro x hx hx2
  simp only [List.map_cons, List.map_nil, List.mem_singleton] at hx2
  subst hx2
  exact hnotmem hx

theorem pairUnique_applyOp (db : DB) (op : Op) (hu : PairUnique db.bookings) :
    PairUnique (applyOp db op).bookings := by
  cases op with
  | createB now u e =>
    cases hc : create_booking now u e db with
    | error err => rw [applyOp_createB_of_error db err now u e hc]; exact hu
    | ok p =>
      obtain ⟨db2, ts⟩ := p
      rw [applyOp_createB_of_ok db db2 ts now u e hc]
      obtain ⟨-, -, -, -, ev, -, -, -, -, hbk⟩ :=
        create_booking_ok_inv now u e db db2 ts hc
      rcases hbk with ⟨hins, hfb⟩ | hre | hsame
      · rw [hins]
        exact pairUnique_append_new u e now db.bookings hu hfb
      · rw [hre, PairUnique, bookingKeys_reactivateFirst]
        exact hu
      · rw [hsame]
        exact hu
  | cancelB now u e =>
    cases hc : cancel_booking now u e db with
    | error err => rw [applyOp_cancelB_of_error db err now u e hc]; exact hu
    | ok p =>
      obtain ⟨db2, ts⟩ := p
      rw [applyOp_cancelB_of_ok db db2 ts now u e hc]
      obtain ⟨-, -, -, -, hbk, -⟩ := cancel_booking_ok_inv now u e db db2 ts hc
      rw [hbk, PairUnique, bookingKeys_cancelFirst]
      exact hu

theorem pairUnique_runOps (db : DB) (ops : List Op) (hu : PairUnique db.bookings) :
    PairUnique (runOps db ops).bookings := by
  induction ops generalizing db with
  | nil => exact hu
  | cons op ops ih => exact ih (applyOp db op) (pairUnique_applyOp db op hu)

theorem create_booking_noSeats_of_full (db : DB) (now : Int) (u e : Nat)
    (ev : Event) (hfe : findEvent db e = some ev)
    (hst : ev.status = EventStatus.expected) (hfut : now < ev.startAt)
    (hfull : ev.seats ≤ activeBookingsCount db.bookings e) :
    create_booking now u e db = Except.error BookingError.noSeats := by
  unfold create_booking
  rw [hfe]
  dsimp only
  rw [if_neg (fun hc => hc hst), if_neg (not_le.mpr hfut), if_pos hfull]

/-- C1: the capacity invariant ActiveBookingCount(event) ≤ event.seats is
preserved by every core operation. First conjunct: create_booking grants a
seat only when the computed active count is strictly below event.seats,
raising NoSeats otherwise (lines 63-68 run under the select_for_update row
lock of line 53, so each call is one atomic step). Second conjunct: from any
store satisfying the invariant, no sequence of CreateBooking / CancelBooking
calls ever leaves any event with more active bookings than seats. -/
theorem c1_no_overbooking :
    (∀ db now u e ev, findEvent db e = some ev →
        ev.status = EventStatus.expected → now < ev.startAt →
        ev.seats ≤ activeBookingsCount db.bookings e →
        create_booking now u e db = Except.error BookingError.noSeats) ∧
    (∀ db ops, CapacityInv db → CapacityInv (runOps db ops)) :=
  ⟨fun db now u e ev hfe hst hfut hfull =>
      create_booking_noSeats_of_full db now u e ev hfe hst hfut hfull,
   fun db ops h => capacityInv_runOps db ops h⟩

theorem c1_no_overbooking_witness :
    create_booking 0 6 1 dbC1 = Except.error BookingError.noSeats ∧
    CapacityInv (runOps dbC1 [Op.createB 0 6 1, Op.cancelB 0 5 1, Op.createB 0 6 1]) :=
  ⟨c1_no_overbooking.1 dbC1 0 6 1 evC1 (by decide) (by decide) (by decide) (by decide),
   c1_no_overbooking.2 dbC1 [Op.createB 0 6 1, Op.cancelB 0 5 1, Op.createB 0 6 1]
     (by decide)⟩

/-- C6: with an active booking for (user, event) in a store satisfying the
(user, event) uniqueness constraint, CancelBooking succeeds (Released textup
of cancel_booking lines 99-110), stamps cancelled_at on that single row and
decrements the active count of the event by exactly one; an immediately
repeated CancelBooking finds no active row and raises BookingNotFound before
any write, so the second call has no side effect. -/
theorem c6_idempotent_cancel (db : DB) (t1 t2 : Int) (u e : Nat) (b : Booking)
    (hu : PairUnique db.bookings)
    (hb : db.bookings.find? (matchesActivePair u e) = some b) :
    cancel_booking t1 u e db =
      Except.ok ({ db with bookings := cancelFirst t1 u e db.bookings },
                 [Task.sendCancelNotification u e]) ∧
    activeBookingsCount (cancelFirst t1 u e db.bookings) e + 1 =
      activeBookingsCount db.bookings e ∧
    cancel_booking t2 u e { db with bookings := cancelFirst t1 u e db.bookings } =
      Except.error BookingError.bookingNotFound := by
  refine ⟨?_, activeBookingsCount_cancelFirst_of_find t1 u e db.bookings b hb, ?_⟩
  · unfold cancel_booking
    rw [hb]
  · unfold cancel_booking
    dsimp only
    rw [find?_matchesActivePair_cancelFirst t1 u e db.bookings hu]

theorem c6_idempotent_cancel_witness :
    cancel_booking 10 3 1 dbC6 =
      Except.ok ({ dbC6 with bookings := cancelFirst 10 3 1 dbC6.bookings },
                 [Task.sendCancelNotification 3 1]) ∧
    activeBookingsCount (cancelFirst 10 3 1 dbC6.bookings) 1 + 1 =
      activeBookingsCount dbC6.bookings 1 ∧
    cancel_booking 20 3 1 { dbC6 with bookings := cancelFirst 10 3 1 dbC6.bookings } =
      Except.error BookingError.bookingNotFound :=
  c6_idempotent_cancel dbC6 10 20 3 1
    { userId := 3, eventId := 1, createdAt := 0, cancelledAt := none }
    (by decide) (by decide)

/-- C7: create_booking against an event whose status is not EXPECTED, or
whose start_at is not in the future, always raises EventFinished (the
EventNotBookable of the spec taxonomy, lines 57-61) and leaves the store
untouched: no Booking row is created or reactivated, no seat reserved, no
task enqueued. -/
theorem c7_status_gated_booking (db : DB) (now : Int) (u e : Nat) (ev : Event)
    (hfe : findEvent db e = some ev)
    (hbad : ev.status ≠ EventStatus.expected ∨ ev.startAt ≤ now) :
    create_booking now u e db = Except.error BookingError.eventFinished ∧
    applyOp db (Op.createB now u e) = db := by
  have hmain : create_booking now u e db = Except.error BookingError.eventFinished := by
    unfold create_booking
    rw [hfe]
    dsimp only
    by_cases hst : ev.status = EventStatus.expected
    · have hle : ev.startAt ≤ now := hbad.resolve_left (not_not.mpr hst)
      rw [if_neg (fun hc => hc hst), if_pos hle]
    · rw [if_pos hst]
  exact ⟨hmain, applyOp_createB_of_error db BookingError.eventFinished now u e hmain⟩

theorem c7_status_gated_booking_witness :
    create_booking 0 1 2 dbC7 = Except.error BookingError.eventFinished ∧
    applyOp dbC7 (Op.createB 0 1 2) = dbC7 :=
  c7_status_gated_booking dbC7 0 1 2
    { id := 2, title := "", startAt := 100, city := "", seats := 5,
      status := EventStatus.finished }
    (by decide) (Or.inl (by decide))

/-- C10: when the active-booking count of an event has already reached its
seats, create_booking raises NoSeats for every caller, including a user who
already holds an active booking on that event, because the capacity check of
lines 63-68 runs before the per-user get_or_create of line 70; a repeat
booking on a full event therefore fails instead of idempotently returning
the existing active booking. -/
theorem c10_full_event_repeat_booking (db : DB) (now : Int) (u e : Nat)
    (ev : Event) (b : Booking)
    (hfe : findEvent db e = some ev)
    (hst : ev.status = EventStatus.expected)
    (hfut : now < ev.startAt)
    (hfull : ev.seats ≤ activeBookingsCount db.bookings e)
    (hmine : db.bookings.find? (matchesActivePair u e) = some b) :
    create_booking now u e db = Except.error BookingError.noSeats :=
  create_booking_noSeats_of_full db now u e ev hfe hst hfut hfull

theorem c10_full_event_repeat_booking_witness :
    create_booking 0 7 1 dbC10 = Except.error BookingError.noSeats :=
  c10_full_event_repeat_booking dbC10 0 7 1 evC1
    { userId := 7, eventId := 1, createdAt := 0, cancelledAt := none }
    (by decide) (by decide) (by decide) (by decide) (by decide)

/-- C8: at most one Booking row per (user, event) pair exists at all times
(first conjunct: the uniqueness key list stays duplicate-free under every
call sequence, matching the unique_user_event_booking constraint), and
cancelling then re-creating a booking for the same pair yields exactly one
row for the pair, active again: the get_or_create of line 70 finds the
soft-deleted row, lines 74-76 reset cancelled_at to null, the table does not
grow and no second row appears. -/
theorem c8_rebook_reuses_row :
    (∀ db ops, PairUnique db.bookings → PairUnique (runOps db ops).bookings) ∧
    (∀ db (t1 t2 : Int) (u e : Nat) (ev : Event) (b : Booking),
      PairUnique db.bookings →
      findEvent db e = some ev →
      ev.status = EventStatus.expected →
      t2 < ev.startAt →
      activeBookingsCount db.bookings e ≤ ev.seats →
      db.bookings.find? (matchesActivePair u e) = some b →
      ∃ db1 db2 ts1 ts2,
        cancel_booking t1 u e db = Except.ok (db1, ts1) ∧
        create_booking t2 u e db1 = Except.ok (db2, ts2) ∧
        db2.bookings.length = db.bookings.length ∧
        db2.bookings.find? (matchesPair u e) = some { b with cancelledAt := none } ∧
        PairUnique db2.bookings) := by
  constructor
  · intro db ops hu
    exact pairUnique_runOps db ops hu
  · intro db t1 t2 u e ev b hu hfe hst hfut hcap hfind
    have hcnt1 : activeBookingsCount (cancelFirst t1 u e db.bookings) e + 1 =
        activeBookingsCount db.bookings e :=
      activeBookingsCount_cancelFirst_of_find t1 u e db.bookings b hfind
    have hfind1 : (cancelFirst t1 u e db.bookings).find? (matchesPair u e) =
        some { b with cancelledAt := some t1 } :=
      find?_matchesPair_cancelFirst t1 u e db.bookings b hu hfind
    refine ⟨{ db with bookings := cancelFirst t1 u e db.bookings },
      { db with bookings := reactivateFirst u e (cancelFirst t1 u e db.bookings) },
      [Task.sendCancelNotification u e], [Task.sendBookingNotification u e],
      ?_, ?_, ?_, ?_, ?_⟩
    · unfold cancel_booking
      rw [hfind]
    · unfold create_booking
      rw [show findEvent { db with bookings := cancelFirst t1 u e db.bookings } e =
            some ev from hfe]
      dsimp only
      rw [if_neg (fun hc => hc hst), if_neg (not_le.mpr hfut), if_neg (by omega),
          hfind1]
      dsimp only
      rw [if_pos (show (some t1).isSome = true from rfl)]
    · dsimp only
      rw [length_reactivateFirst, length_cancelFirst]
    · dsimp only
      rw [find?_matchesPair_reactivateFirst u e (cancelFirst t1 u e db.bookings)
            { b with cancelledAt := some t1 } hfind1]
    · show PairUnique (reactivateFirst u e (cancelFirst t1 u e db.bookings))
      rw [PairUnique, bookingKeys_reactivateFirst, bookingKeys_cancelFirst]
      exact hu

theorem c8_rebook_reuses_row_witness :
    ∃ db1 db2 ts1 ts2,
      cancel_booking 5 3 1 dbC8 = Except.ok (db1, ts1) ∧
      create_booking 6 3 1 db1 = Except.ok (db2, ts2) ∧
      db2.bookings.length = dbC8.bookings.length ∧
      db2.bookings.find? (matchesPair 3 1) =
        some { userId := 3, eventId := 1, createdAt := 0, cancelledAt := none } ∧
      PairUnique db2.bookings :=
  c8_rebook_reuses_row.2 dbC8 5 6 3 1 evC1
    { userId := 3, eventId := 1, createdAt := 0, cancelledAt := none }
    (by decide) (by decide) (by decide) (by decide) (by decide) (by decide)

/-- C2: the claim says a dispatch whose referenced User or Event no longer
exists still writes a NotificationRecord with is_sent false, a placeholder
message and a populated error_message, and that the NotificationRecord type
carries a nullable error_message attribute. On the code this fails: the
dispatch helper passes an error_message keyword to
NotificationLog.objects.create (tasks.py lines 49-57) but the
NotificationLog model of notifications/models.py declares no error_message
field, so the Django model constructor raises TypeError before any row is
inserted. Every dispatch, on every store and transport, aborts this way and
writes nothing; the ledger of accepted attribute names indeed lacks
error_message. -/
theorem c2_dispatch_always_raises (now : Int) (userId eventId : Nat)
    (ty : NotificationType) (render : User → Event → RenderedMessage)
    (transport : String → RenderedMessage → Bool) (db : DB) :
    sendNotificationHelper now userId eventId ty render transport db =
      Except.error
        (PyError.typeErrorUnexpectedKwarg "NotificationLog" "error_message") ∧
    "error_message" ∉ notificationLogAttnames := by
  exact ⟨rfl, by decide⟩

/-- C9: the claim says an event with k active bookings yields k
NotificationRecords plus an aggregate report, one failure never blocking the
remaining recipients. On the code the fan-out aborts at the first recipient:
each helper call raises TypeError at NotificationLog.objects.create (the
model has no error_message field), that exception is not the
Event.DoesNotExist the task catches, so with two active bookings and a
transport that always succeeds the whole task fails with zero records
written and no report. -/
theorem c9_fanout_aborts_without_records :
    activeBookingsCount dbC9.bookings 1 = 2 ∧
    send_event_cancelled_notification 0 1 (fun _ _ => true) dbC9 =
      Except.error
        (PyError.typeErrorUnexpectedKwarg "NotificationLog" "error_message") := by
  exact ⟨rfl, rfl⟩

/-- C3: the concrete double-run scenario of the claim. At now = 0 the event
starts at now + 90m with one active booking and an empty notification log.
The first schedule_reminders run schedules exactly one reminder at
eta = now + 30m and writes nothing durable (the store component of its
result is the input store). The claim says an immediate second run
schedules zero additional reminders; instead the second run over the
unchanged durable state schedules the same reminder again, because the
dedup guard of tasks.py lines 164-169 inspects NotificationLog rows and a
REMINDER row is only created when send_reminder fires at its eta, so none
exists at the time of the second run. -/
theorem c3_second_sweep_schedules_again :
    (schedule_reminders 0 dbC3).1 = dbC3 ∧
    (schedule_reminders 0 dbC3).2 = [Task.sendReminder 1 1 30] ∧
    (schedule_reminders 0 (schedule_reminders 0 dbC3).1).2 =
      [Task.sendReminder 1 1 30] := by
  exact ⟨rfl, rfl, rfl⟩

/-- C5 counterexample: finish_events at now = 0 transitions the stale
EXPECTED event (start_at more than two hours in the past) to FINISHED yet
emits no cancel_scheduled_notifications task, refuting the claim that the
Event change hook observes every bulk-sweep transition and requests
cancellation of pending reminder dispatches: QuerySet.update sends no
pre_save signal. -/
theorem c5_counterexample :
    (finish_events 0 dbC5).1.events =
      [{ evC5 with status := EventStatus.finished }] ∧
    (finish_events 0 dbC5).2.1 = 1 ∧
    Task.cancelScheduledNotifications 4 ∉ (finish_events 0 dbC5).2.2 := by
  exact ⟨rfl, rfl, by decide⟩

/-- C5 amended: the bulk QuerySet.update of finish_events bypasses
Model.save and hence the pre_save signal, so the sweeper emits no
cancellation request on any store; the change hook requests cancellation of
still-pending reminder dispatches only for a status change applied through
Model.save (as an organizer cancelling an event does), where an existing row
leaving EXPECTED enqueues cancel_scheduled_notifications. -/
theorem c5_bulk_update_bypasses_hook :
    (∀ (now : Int) (db : DB), (finish_events now db).2.2 = []) ∧
    (∀ (db : DB) (inst old : Event), findEvent db inst.id = some old →
      old.status = EventStatus.expected → inst.status ≠ EventStatus.expected →
      (event_save db inst).2 = [Task.cancelScheduledNotifications inst.id]) := by
  constructor
  · intro now db
    rfl
  · intro db inst old hfe hold hnew
    show cancel_notifications_on_status_change db inst = _
    unfold cancel_notifications_on_status_change
    rw [hfe]
    dsimp only
    rw [if_pos ⟨hold, hnew⟩]

theorem c5_bulk_update_bypasses_hook_witness :
    (finish_events 0 dbC5).2.2 = [] ∧
    (event_save dbC5 evC5cancelled).2 = [Task.cancelScheduledNotifications 4] :=
  ⟨c5_bulk_update_bypasses_hook.1 0 dbC5,
   c5_bulk_update_bypasses_hook.2 dbC5 evC5cancelled evC5
     (by decide) (by decide) (by decide)⟩

/-- C4 counterexample: a successful create_booking call on a bookable event
whose transaction then rolls back at commit time. The action trace contains
the .delay enqueue of the booking notification and ends in rollback with no
commit anywhere, so a notification intent was enqueued for a reservation
that was never durably committed: line 79 of events/services/booking.py
runs inside the transaction.atomic block and the source registers no
transaction.on_commit hook, refuting the claim. -/
theorem c4_counterexample :
    create_booking_trace 0 9 1 dbC4 false =
      [Action.writeBooking 9 1,
       Action.enqueue (Task.sendBookingNotification 9 1), Action.rollback] ∧
    Action.enqueue (Task.sendBookingNotification 9 1) ∈
      create_booking_trace 0 9 1 dbC4 false ∧
    Action.commit ∉ create_booking_trace 0 9 1 dbC4 false := by
  exact ⟨rfl, by decide, by decide⟩

/-- C4 amended: on every successful create_booking call the booking
notification is enqueued inside the atomic block, strictly before the
transaction end: the trace is the row write (if any) followed by the
enqueue and only then the closing commit, or rollback when the commit
fails, in which case the notification has nevertheless already been
enqueued. -/
theorem c4_enqueue_inside_transaction (now : Int) (u e : Nat) (db db2 : DB)
    (ts : List Task) (commitOk : Bool)
    (h : create_booking now u e db = Except.ok (db2, ts)) :
    ∃ pre, (pre = [] ∨ pre = [Action.writeBooking u e]) ∧
      create_booking_trace now u e db commitOk =
        pre ++ [Action.enqueue (Task.sendBookingNotification u e),
                if commitOk then Action.commit else Action.rollback] := by
  obtain ⟨-, -, -, -, ev, hfe, hst, hfut, hcnt, -⟩ :=
    create_booking_ok_inv now u e db db2 ts h
  unfold create_booking_trace
  rw [hfe]
  dsimp only
  rw [if_neg (fun hc => hc hst), if_neg (not_le.mpr hfut), if_neg (by omega)]
  cases hfb : db.bookings.find? (matchesPair u e) with
  | none => exact ⟨[Action.writeBooking u e], Or.inr rfl, rfl⟩
  | some ex =>
    dsimp only
    by_cases hex : ex.cancelledAt.isSome = true
    · rw [if_pos hex]
      exact ⟨[Action.writeBooking u e], Or.inr rfl, rfl⟩
    · rw [if_neg hex]
      exact ⟨[], Or.inl rfl, rfl⟩

theorem c4_enqueue_inside_transaction_witness :
    ∃ pre, (pre = [] ∨ pre = [Action.writeBooking 9 1]) ∧
      create_booking_trace 0 9 1 dbC4 true =
        pre ++ [Action.enqueue (Task.sendBookingNotification 9 1),
                if true then Action.commit else Action.rollback] :=
  c4_enqueue_inside_transaction 0 9 1 dbC4
    { users := [], events := [evC1],
      bookings := [{ userId := 9, eventId := 1, createdAt := 0,
                     cancelledAt := none }],
      notifications := [] }
    [Task.sendBookingNotification 9 1] true (by rfl)

end Afisha
